import Mathlib

/-!
Shallow embedding of `src/kbd.rs` (fusion-kbd-controller-rs): the 8-byte
command-header codec and the device-session operations of `FusionKBD`,
with USB transfers modelled as explicit traces of actions issued against
a parametric (mock) transport.

Bytes (`u8`) are modelled as `Nat`; wrapping arithmetic carries an
explicit `% 256`.
-/

deriving instance DecidableEq for Except

namespace FusionKbd

/-- `u8` bitwise NOT: `!x` in Rust, i.e. `255 - x` on a byte. -/
def byteNot (x : Nat) : Nat := 255 - x % 256

/-- `u8::wrapping_add` folded over a list, starting from 0: mirrors
`iter().fold(0, |sum, x| sum.wrapping_add(*x))`. -/
def wrappingSum (l : List Nat) : Nat :=
  l.foldl (fun sum x => (sum + x) % 256) 0

/-- The `#[repr(C, packed)] struct Header` of `kbd.rs`: eight `u8` fields. -/
structure Header where
  kind : Nat
  reserved : Nat
  mode : Nat
  speed_length : Nat
  brightness : Nat
  color : Nat
  reserved2 : Nat
  checksum : Nat
deriving DecidableEq

/-- `Header::as_bytes`: the wire bytes of the header.  `repr(C, packed)`
guarantees the in-memory reinterpretation used by the source is exactly the
eight fields in declaration order with no padding. -/
def Header.as_bytes (h : Header) : List Nat :=
  [h.kind, h.reserved, h.mode, h.speed_length, h.brightness, h.color,
   h.reserved2, h.checksum]

/-- `Header::new`: builds the header with both reserved fields and the
checksum zeroed, then overwrites the checksum with the bitwise complement of
the wrapping sum of the first 7 wire bytes. -/
def Header.new (kind mode speed_length brightness color : Nat) : Header :=
  let header : Header :=
    { kind := kind, mode := mode, speed_length := speed_length,
      brightness := brightness, color := color,
      reserved := 0, reserved2 := 0, checksum := 0 }
  { header with checksum := byteNot (wrappingSum (header.as_bytes.take 7)) }

def KIND_PRESET : Nat := 0x08
def KIND_CUSTOM_CONFIG : Nat := 0x12
def KIND_READ_CONFIG : Nat := 0x92

/-- The `Preset` enum of `kbd.rs` (13 built-in lighting modes). -/
inductive Preset where
  | Static | Breathing | Wave | FadeOnKeypress | Marquee | Ripple
  | FlashOnKeypress | Neon | RainbowMarquee | Raindrop | CircleMarquee
  | Hedge | Rotate
deriving DecidableEq

/-- The numeric discriminant of each `Preset` variant (`preset as u8`). -/
def Preset.toByte : Preset → Nat
  | .Static => 0x01
  | .Breathing => 0x02
  | .Wave => 0x03
  | .FadeOnKeypress => 0x04
  | .Marquee => 0x05
  | .Ripple => 0x06
  | .FlashOnKeypress => 0x07
  | .Neon => 0x08
  | .RainbowMarquee => 0x09
  | .Raindrop => 0x0a
  | .CircleMarquee => 0x0b
  | .Hedge => 0x0c
  | .Rotate => 0x0d

/-- The `Color` enum of `kbd.rs` (8 named colors). -/
inductive Color where
  | Rand | Red | Green | Yellow | Blue | Orange | Purple | White
deriving DecidableEq

/-- The numeric discriminant of each `Color` variant (`color as u8`). -/
def Color.toByte : Color → Nat
  | .Rand => 0x00
  | .Red => 0x01
  | .Green => 0x02
  | .Yellow => 0x03
  | .Blue => 0x04
  | .Orange => 0x05
  | .Purple => 0x06
  | .White => 0x07

/-- Transport-level errors (`rusb::Error`, abstracted). -/
inductive UsbError where
  | ioErr | timeoutErr | accessErr | noDeviceErr | otherErr
deriving DecidableEq

/-- How an operation of the session can terminate abnormally: a Rust panic
(failed `assert!` or out-of-range slice index) or a propagated transport
error (`?` on a `rusb::Error`). -/
inductive RunError where
  | panicked (msg : String)
  | usb (e : UsbError)
deriving DecidableEq

/-- One USB transfer issued by the session, as observed by the transport.
Timeouts are in milliseconds (`Duration::new(0, 0)` is `0`). -/
inductive UsbAction where
  | controlOut (bRequest wValue wIndex : Nat) (payload : List Nat) (timeoutMs : Nat)
  | controlIn (bRequest wValue wIndex : Nat) (len : Nat) (timeoutMs : Nat)
  | interruptOut (endpoint : Nat) (payload : List Nat) (timeoutMs : Nat)
  | interruptIn (endpoint : Nat) (len : Nat) (timeoutMs : Nat)
deriving DecidableEq

def UsbAction.isInterruptOut : UsbAction → Bool
  | .interruptOut _ _ _ => true
  | _ => false

def UsbAction.isInterruptIn : UsbAction → Bool
  | .interruptIn _ _ _ => true
  | _ => false

/-- The payload carried by an interrupt-Out action (`[]` otherwise). -/
def UsbAction.payloadOf : UsbAction → List Nat
  | .interruptOut _ p _ => p
  | _ => []

/-- `FusionKBD::write_control_kbd`: the control transfer that carries a
header (direction Out, class/interface, bRequest 0x09, wValue 0x0300,
wIndex 0x0003, zero timeout). -/
def writeControlAction (h : Header) : UsbAction :=
  .controlOut 0x09 0x0300 0x0003 h.as_bytes 0

/-- `FusionKBD::set_preset`: build the preset header and send it in a single
control transfer.  `ctrl` is the transport result of that transfer.
Returns the operation result together with the trace of issued transfers. -/
def set_preset (ctrl : Except UsbError Nat) (preset : Preset) (speed brightness : Nat)
    (color : Color) : Except RunError Unit × List UsbAction :=
  let header := Header.new KIND_PRESET preset.toByte speed brightness color.toByte
  match ctrl with
  | .error e => (.error (.usb e), [writeControlAction header])
  | .ok _ => (.ok (), [writeControlAction header])

/-- `FusionKBD::set_custom`: `assert!(slot < 5)`, then a single control
transfer with header kind `KIND_PRESET`, mode `0x33 + slot`. -/
def set_custom (ctrl : Except UsbError Nat) (slot brightness : Nat) :
    Except RunError Unit × List UsbAction :=
  if slot < 5 then
    let header := Header.new KIND_PRESET (0x33 + slot) 0 brightness 0
    match ctrl with
    | .error e => (.error (.usb e), [writeControlAction header])
    | .ok _ => (.ok (), [writeControlAction header])
  else (.error (.panicked "assertion failed: slot < 5"), [])

/-- Overwrite a prefix of `buf` with `bytes` (what a transport read does to
the caller's buffer when it transfers `bytes.length` bytes). -/
def fillBuf (buf bytes : List Nat) : List Nat :=
  bytes.take buf.length ++ buf.drop bytes.length

/-- The contents of `get_key`'s 8-byte buffer after the interrupt-In
transfer: the buffer starts zeroed; a successful read overwrites a prefix
with the bytes read, an error or timeout leaves it untouched. -/
def get_key_buf (readResult : Except UsbError (List Nat)) : List Nat :=
  match readResult with
  | .ok bytes => fillBuf (List.replicate 8 0) bytes
  | .error _ => List.replicate 8 0

/-- `FusionKBD::get_key`: one interrupt-In transfer from endpoint 0x81 into
an 8-byte buffer with a 10 ms timeout; the transfer result is discarded
(`let _ = ...`), and `Some('a')` is returned iff byte 2 of the buffer is
nonzero. -/
def get_key (readResult : Except UsbError (List Nat)) :
    Option Char × List UsbAction :=
  (if (get_key_buf readResult).getD 2 0 ≠ 0 then some 'a' else none,
   [UsbAction.interruptIn 0x81 8 10])

/-- The interrupt-Out action for upload chunk `i`: endpoint 6, payload
`data[i*64 .. i*64+64)`, zero timeout. -/
def uploadChunkAction (data : List Nat) (i : Nat) : UsbAction :=
  .interruptOut 6 ((data.drop (i * 64)).take 64) 0

/-- The interrupt-transfer loop of `upload_custom` over the remaining chunk
indices `is` (the source iterates `i in 0..8`).  Slicing `&data[start..end]`
panics when `end > data.len()`; a transport `Err` is propagated by `?`
after the transfer was issued; a short `Ok(tf)` only prints a diagnostic
and the loop continues. -/
def uploadChunks (wr : Nat → Except UsbError Nat) (data : List Nat) :
    List Nat → List UsbAction → Except RunError Unit × List UsbAction
  | [], trace => (.ok (), trace)
  | i :: rest, trace =>
    if data.length < i * 64 + 64 then
      (.error (.panicked "range end index out of range for slice"), trace)
    else
      match wr i with
      | .error e => (.error (.usb e), trace ++ [uploadChunkAction data i])
      | .ok _tf => uploadChunks wr data rest (trace ++ [uploadChunkAction data i])

/-- `FusionKBD::upload_custom`: `assert!(slot < 5)`; control transfer with
header `(KIND_CUSTOM_CONFIG, slot, 0x08, 0, 0)` (propagates its error);
then 8 interrupt-Out transfers of `data[i*64..i*64+64]` to endpoint 6.
`ctrl` is the transport result of the control transfer and `wr i` the
result (byte count or error) of chunk `i`. -/
def upload_custom (ctrl : Except UsbError Nat) (wr : Nat → Except UsbError Nat)
    (slot : Nat) (data : List Nat) : Except RunError Unit × List UsbAction :=
  if slot < 5 then
    let header := Header.new KIND_CUSTOM_CONFIG slot 0x08 0x00 0x00
    match ctrl with
    | .error e => (.error (.usb e), [writeControlAction header])
    | .ok _ => uploadChunks wr data (List.range 8) [writeControlAction header]
  else (.error (.panicked "assertion failed: slot < 5"), [])

/-- Write `bytes` into `buf` starting at offset `start` (what
`read_interrupt(_, &mut data[start..end], _)` does to the caller's
512-byte array when it transfers `bytes.length` bytes). -/
def writeAt (buf : List Nat) (start : Nat) (bytes : List Nat) : List Nat :=
  buf.take start ++ bytes ++ buf.drop (start + bytes.length)

/-- The interrupt-transfer loop of `download_custom` over the remaining
chunk indices: each chunk reads up to 64 bytes from endpoint 0x85 into
`buf[i*64 .. i*64+64)`.  A transport `Err` is propagated by `?`; a short
`Ok` read only prints a diagnostic and the loop continues. -/
def downloadChunks (rd : Nat → Except UsbError (List Nat)) :
    List Nat → List Nat → List UsbAction →
    Except RunError Unit × List Nat × List UsbAction
  | [], buf, trace => (.ok (), buf, trace)
  | i :: rest, buf, trace =>
    let act := UsbAction.interruptIn 0x85 64 0
    match rd i with
    | .error e => (.error (.usb e), buf, trace ++ [act])
    | .ok bytes =>
      downloadChunks rd rest (writeAt buf (i * 64) (bytes.take 64)) (trace ++ [act])

/-- `FusionKBD::download_custom`: `assert!(slot < 5)`; control transfer
with header `(KIND_READ_CONFIG, slot, 0, 0, 0)`; a handshake control-In
transfer into an 8-byte discarded buffer (bRequest 0x01); then 8
interrupt-In transfers of 64 bytes each from endpoint 0x85 into `buf`.
Returns the result, the final contents of the caller's 512-byte buffer,
and the trace. -/
def download_custom (ctrlOut : Except UsbError Nat)
    (ctrlIn : Except UsbError (List Nat)) (rd : Nat → Except UsbError (List Nat))
    (slot : Nat) (buf : List Nat) :
    Except RunError Unit × List Nat × List UsbAction :=
  if slot < 5 then
    let header := Header.new KIND_READ_CONFIG slot 0 0 0
    match ctrlOut with
    | .error e => (.error (.usb e), buf, [writeControlAction header])
    | .ok _ =>
      let hsAct := UsbAction.controlIn 0x01 0x0300 0x0003 8 0
      match ctrlIn with
      | .error e => (.error (.usb e), buf, [writeControlAction header, hsAct])
      | .ok _ =>
        downloadChunks rd (List.range 8) buf [writeControlAction header, hsAct]
  else (.error (.panicked "assertion failed: slot < 5"), buf, [])

/-- One sub-step of session teardown. -/
inductive TeardownStep where
  | releaseInterface (iface : Nat)
  | attachKernelDriver (iface : Nat)
deriving DecidableEq

/-- `impl Drop for FusionKBD`: attempt the four teardown sub-steps in
source order, discarding each result (`let _ = ...`), and return without
an error no matter what the transport answered.  The trace records every
attempted step with the transport's answer. -/
def fusionDrop (t : TeardownStep → Except UsbError Unit) :
    Except RunError Unit × List (TeardownStep × Except UsbError Unit) :=
  let s0 := TeardownStep.releaseInterface 0
  let s1 := TeardownStep.releaseInterface 3
  let s2 := TeardownStep.attachKernelDriver 0
  let s3 := TeardownStep.attachKernelDriver 3
  (.ok (), [(s0, t s0), (s1, t s1), (s2, t s2), (s3, t s3)])

/-- `a` occurs strictly before (the first occurrence of) `b` in `l`. -/
def occursBefore (a b : TeardownStep) : List TeardownStep → Bool
  | [] => false
  | x :: xs => if x = a then xs.contains b else occursBefore a b xs

/-- A mock interrupt-In transport built from a previously recorded trace: it
replays the payload of the `i`-th interrupt-Out transfer of `trace` as the
result of read number `i` (erroring once the recording is exhausted). -/
def replayReads (trace : List UsbAction) (i : Nat) : Except UsbError (List Nat) :=
  match (trace.filter UsbAction.isInterruptOut).get? i with
  | some a => .ok a.payloadOf
  | none => .error .ioErr

/-! ## Shared helper lemmas -/

lemma uploadChunks_trace_mono (wr : Nat → Except UsbError Nat) (data : List Nat) :
    ∀ is trace, ∃ s, (uploadChunks wr data is trace).2 = trace ++ s := by
  intro is
  induction is with
  | nil => intro trace; exact ⟨[], by simp [uploadChunks]⟩
  | cons i rest ih =>
    intro trace
    by_cases hlen : data.length < i * 64 + 64
    · exact ⟨[], by simp [uploadChunks, hlen]⟩
    · rcases hw : wr i with e | n
      · exact ⟨[uploadChunkAction data i], by simp [uploadChunks, hlen, hw]⟩
      · rcases ih (trace ++ [uploadChunkAction data i]) with ⟨s, hs⟩
        exact ⟨[uploadChunkAction data i] ++ s, by
          simp only [uploadChunks, hlen, if_neg hlen, hw]
          simpa using hs⟩

lemma downloadChunks_trace_mono (rd : Nat → Except UsbError (List Nat)) :
    ∀ is buf trace, ∃ s, (downloadChunks rd is buf trace).2.2 = trace ++ s := by
  intro is
  induction is with
  | nil => intro buf trace; exact ⟨[], by simp [downloadChunks]⟩
  | cons i rest ih =>
    intro buf trace
    rcases hr : rd i with e | bytes
    · exact ⟨[UsbAction.interruptIn 0x85 64 0], by simp [downloadChunks, hr]⟩
    · rcases ih (writeAt buf (i * 64) (bytes.take 64))
        (trace ++ [UsbAction.interruptIn 0x85 64 0]) with ⟨s, hs⟩
      exact ⟨[UsbAction.interruptIn 0x85 64 0] ++ s, by
        simp only [downloadChunks, hr]
        simpa using hs⟩

lemma uploadChunks_ok (wr : Nat → Except UsbError Nat) (data : List Nat) :
    ∀ is trace,
      (∀ i ∈ is, i * 64 + 64 ≤ data.length ∧ ∃ n, wr i = .ok n) →
      uploadChunks wr data is trace =
        (.ok (), trace ++ is.map (uploadChunkAction data)) := by
  intro is
  induction is with
  | nil => intro trace _; simp [uploadChunks]
  | cons i rest ih =>
    intro trace h
    obtain ⟨hle, n, hw⟩ := h i (by simp)
    have hlen : ¬ data.length < i * 64 + 64 := by omega
    simp only [uploadChunks, if_neg hlen, hw]
    rw [ih (trace ++ [uploadChunkAction data i]) (fun j hj => h j (by simp [hj]))]
    simp

lemma uploadChunks_err (wr : Nat → Except UsbError Nat) (data : List Nat)
    (e : UsbError) :
    ∀ is₁ j is₂ trace,
      (∀ i ∈ is₁, i * 64 + 64 ≤ data.length ∧ ∃ n, wr i = .ok n) →
      j * 64 + 64 ≤ data.length → wr j = .error e →
      uploadChunks wr data (is₁ ++ j :: is₂) trace =
        (.error (.usb e), trace ++ (is₁ ++ [j]).map (uploadChunkAction data)) := by
  intro is₁
  induction is₁ with
  | nil =>
    intro j is₂ trace _ hj hw
    have hlen : ¬ data.length < j * 64 + 64 := by omega
    simp only [List.nil_append, uploadChunks, if_neg hlen, hw]
    simp
  | cons i rest ih =>
    intro j is₂ trace h hj hw
    obtain ⟨hle, n, hwi⟩ := h i (by simp)
    have hlen : ¬ data.length < i * 64 + 64 := by omega
    simp only [List.cons_append, uploadChunks, if_neg hlen, hwi, List.append_eq]
    rw [ih j is₂ (trace ++ [uploadChunkAction data i])
      (fun a ha => h a (by simp [ha])) hj hw]
    simp

lemma uploadChunks_panic (wr : Nat → Except UsbError Nat) (data : List Nat)
    (hok : ∀ i, ∃ n, wr i = .ok n) (hlt : data.length < 512) :
    ∀ n k trace, k + n = 8 → 64 * k ≤ data.length →
      uploadChunks wr data (List.range' k n) trace =
        (.error (.panicked "range end index out of range for slice"),
         trace ++ (List.range' k (data.length / 64 - k)).map (uploadChunkAction data)) := by
  intro n
  induction n with
  | zero => intro k trace hk hkle; omega
  | succ m ih =>
    intro k trace hk hkle
    rw [List.range'_succ k m 1]
    by_cases hend : data.length < k * 64 + 64
    · have hdiv : data.length / 64 - k = 0 := by omega
      simp only [uploadChunks, if_pos hend, hdiv, List.range'_zero, List.map_nil,
        List.append_nil]
    · obtain ⟨n₀, hw⟩ := hok k
      simp only [uploadChunks, if_neg hend, hw]
      rw [ih (k + 1) (trace ++ [uploadChunkAction data k]) (by omega) (by omega)]
      have hk1 : k + 1 ≤ data.length / 64 := by omega
      have hsplit : data.length / 64 - k = (data.length / 64 - (k + 1)) + 1 := by omega
      rw [hsplit, List.range'_succ k _ 1]
      simp

lemma join_segments (data : List Nat) :
    ∀ n k, ((List.range' k n).map (fun i => (data.drop (i * 64)).take 64)).flatten
      = (data.drop (k * 64)).take (n * 64) := by
  intro n
  induction n with
  | zero => intro k; simp
  | succ m ih =>
    intro k
    rw [List.range'_succ k m 1]
    simp only [List.map_cons, List.flatten_cons, ih (k + 1)]
    have h1 : (m + 1) * 64 = 64 + m * 64 := by omega
    rw [h1, List.take_add]
    congr 2
    rw [List.drop_drop]
    congr 1
    omega

lemma downloadChunks_ok (rd : Nat → Except UsbError (List Nat)) :
    ∀ is buf trace, (∀ i ∈ is, ∃ bs, rd i = .ok bs) →
      ∃ buf2, downloadChunks rd is buf trace =
        (.ok (), buf2,
         trace ++ List.replicate is.length (UsbAction.interruptIn 0x85 64 0)) := by
  intro is
  induction is with
  | nil => intro buf trace _; exact ⟨buf, by simp [downloadChunks]⟩
  | cons i rest ih =>
    intro buf trace h
    obtain ⟨bs, hr⟩ := h i (by simp)
    obtain ⟨buf2, hb⟩ := ih (writeAt buf (i * 64) (bs.take 64))
      (trace ++ [UsbAction.interruptIn 0x85 64 0]) (fun j hj => h j (by simp [hj]))
    refine ⟨buf2, ?_⟩
    simp only [downloadChunks, hr, hb]
    simp [List.replicate_succ]

lemma downloadChunks_err (rd : Nat → Except UsbError (List Nat)) (e : UsbError) :
    ∀ is₁ j is₂ buf trace, (∀ i ∈ is₁, ∃ bs, rd i = .ok bs) → rd j = .error e →
      ∃ buf2, downloadChunks rd (is₁ ++ j :: is₂) buf trace =
        (.error (.usb e), buf2,
         trace ++ List.replicate (is₁.length + 1) (UsbAction.interruptIn 0x85 64 0)) := by
  intro is₁
  induction is₁ with
  | nil =>
    intro j is₂ buf trace _ hj
    exact ⟨buf, by simp [downloadChunks, hj]⟩
  | cons i rest ih =>
    intro j is₂ buf trace h hj
    obtain ⟨bs, hr⟩ := h i (by simp)
    obtain ⟨buf2, hb⟩ := ih j is₂ (writeAt buf (i * 64) (bs.take 64))
      (trace ++ [UsbAction.interruptIn 0x85 64 0]) (fun a ha => h a (by simp [ha])) hj
    refine ⟨buf2, ?_⟩
    simp only [List.cons_append, downloadChunks, hr, List.append_eq, hb]
    simp [List.replicate_succ]

lemma downloadChunks_roundtrip (data : List Nat) (hd : data.length = 512)
    (rd : Nat → Except UsbError (List Nat))
    (hrd : ∀ i, i < 8 → rd i = .ok ((data.drop (i * 64)).take 64)) :
    ∀ n k buf trace, k + n = 8 → buf.length = 512 →
      buf.take (k * 64) = data.take (k * 64) →
      (downloadChunks rd (List.range' k n) buf trace).2.1 = data := by
  intro n
  induction n with
  | zero =>
    intro k buf trace hk hbl hbt
    have hk8 : k = 8 := by omega
    subst hk8
    have h1 : buf.take (8 * 64) = buf := by
      rw [show (8 : Nat) * 64 = 512 from rfl, ← hbl, List.take_length]
    have h2 : data.take (8 * 64) = data := by
      rw [show (8 : Nat) * 64 = 512 from rfl, ← hd, List.take_length]
    simp only [List.range'_zero, downloadChunks]
    rw [← h1, hbt, h2]
  | succ m ih =>
    intro k buf trace hk hbl hbt
    have hk7 : k < 8 := by omega
    have hr := hrd k hk7
    have hseglen : ((data.drop (k * 64)).take 64).length = 64 := by
      simp only [List.length_take, List.length_drop, hd]
      omega
    have htt : ((data.drop (k * 64)).take 64).take 64 = (data.drop (k * 64)).take 64 := by
      simp [List.take_take]
    rw [List.range'_succ k m 1]
    simp only [downloadChunks, hr, htt]
    have hblen : (writeAt buf (k * 64) ((data.drop (k * 64)).take 64)).length = 512 := by
      simp only [writeAt, List.length_append, List.length_take, List.length_drop,
        hbl, hseglen]
      omega
    have hbtake : (writeAt buf (k * 64) ((data.drop (k * 64)).take 64)).take ((k + 1) * 64)
        = data.take ((k + 1) * 64) := by
      have hAlen : (buf.take (k * 64) ++ (data.drop (k * 64)).take 64).length
          = k * 64 + 64 := by
        simp only [List.length_append, List.length_take, hbl, hseglen]
        omega
      have hA2 : (data.take (k * 64) ++ (data.drop (k * 64)).take 64).length
          = k * 64 + 64 := by
        simp only [List.length_append, List.length_take, hd, hseglen]
        omega
      rw [writeAt, show (k + 1) * 64 = k * 64 + 64 from by omega, ← hAlen,
        List.take_left, hbt, hA2, List.take_add]
    exact ih (k + 1) _ _ (by omega) hblen hbtake

lemma filter_interruptOut_map (data : List Nat) (is : List Nat) :
    (is.map (uploadChunkAction data)).filter UsbAction.isInterruptOut
      = is.map (uploadChunkAction data) := by
  induction is with
  | nil => simp
  | cons i rest ih =>
    simp [uploadChunkAction, UsbAction.isInterruptOut, List.filter_cons, ih]

lemma filter_interruptIn_replicate (n a b c : Nat) :
    (List.replicate n (UsbAction.interruptIn a b c)).filter UsbAction.isInterruptIn
      = List.replicate n (UsbAction.interruptIn a b c) := by
  induction n with
  | zero => simp
  | succ m ih =>
    simp [List.replicate_succ, List.filter_cons, UsbAction.isInterruptIn, ih]

lemma uploadChunks_take512 (wr : Nat → Except UsbError Nat) (data : List Nat)
    (hd : 512 ≤ data.length) :
    ∀ is, (∀ i ∈ is, i * 64 + 64 ≤ 512) → ∀ trace,
      uploadChunks wr data is trace = uploadChunks wr (data.take 512) is trace := by
  intro is
  induction is with
  | nil => intro _ trace; simp [uploadChunks]
  | cons i rest ih =>
    intro h trace
    have hi : i * 64 + 64 ≤ 512 := h i (by simp)
    have hlen1 : ¬ data.length < i * 64 + 64 := by omega
    have hlen2 : ¬ (data.take 512).length < i * 64 + 64 := by
      simp only [List.length_take]
      omega
    have hseg : ((data.take 512).drop (i * 64)).take 64 = (data.drop (i * 64)).take 64 := by
      rw [List.drop_take, List.take_take]
      congr 1
      omega
    simp only [uploadChunks, if_neg hlen1, if_neg hlen2, uploadChunkAction, hseg]
    cases hw : wr i with
    | error e => simp [hw]
    | ok n =>
      simp only [hw]
      exact ih (fun a ha => h a (by simp [ha]))
        (trace ++ [UsbAction.interruptOut 6 ((data.drop (i * 64)).take 64) 0])

lemma range_eight_split (j : Nat) (hj : j < 8) :
    List.range 8 = List.range' 0 j ++ j :: List.range' (j + 1) (7 - j) := by
  have h := List.range'_append 0 j (8 - j) 1
  rw [show 0 + 1 * j = j from by omega, show 8 - j + j = 8 from by omega] at h
  rw [List.range_eq_range', ← h,
    show 8 - j = (7 - j) + 1 from by omega, List.range'_succ j (7 - j) 1]

lemma count_upload_trace (data : List Nat) (h : Header) (is : List Nat) :
    ((writeControlAction h :: is.map (uploadChunkAction data)).filter
      UsbAction.isInterruptOut).length = is.length := by
  simp only [List.filter_cons]
  rw [show UsbAction.isInterruptOut (writeControlAction h) = false from rfl]
  simp [filter_interruptOut_map]

lemma count_download_trace (h : Header) (n : Nat) :
    (([writeControlAction h, UsbAction.controlIn 0x01 0x0300 0x0003 8 0]
        ++ List.replicate n (UsbAction.interruptIn 0x85 64 0)).filter
      UsbAction.isInterruptIn).length = n := by
  rw [List.filter_append, filter_interruptIn_replicate]
  rw [show ([writeControlAction h, UsbAction.controlIn 0x01 0x0300 0x0003 8 0].filter
    UsbAction.isInterruptIn) = [] from rfl]
  simp

/-! ## Claim theorems -/

/-- C1: for every input tuple of raw bytes, the header built by
`Header::new` has checksum equal to the bitwise complement of the wrapping
sum of its first 7 wire bytes, the wrapping sum of all 8 wire bytes is
0xFF, and the checksum depends only on the first 7 wire bytes (it is a pure
function of the other fields). -/
theorem C1_header_checksum (kind mode speed_length brightness color : Nat) :
    (Header.new kind mode speed_length brightness color).checksum =
      byteNot (wrappingSum
        ((Header.new kind mode speed_length brightness color).as_bytes.take 7)) ∧
    wrappingSum (Header.new kind mode speed_length brightness color).as_bytes = 0xFF := by
  constructor
  · rfl
  · simp only [Header.new, Header.as_bytes, wrappingSum, byteNot, List.take,
      List.foldl]
    omega

/-- C9: the wire representation produced by `as_bytes` for every header
built by `Header::new` is exactly 8 bytes, laid out in the field order
kind, reserved, mode, speed_length, brightness, color, reserved2, checksum,
and both reserved fields are 0. -/
theorem C9_wire_layout (kind mode speed_length brightness color : Nat) :
    (Header.new kind mode speed_length brightness color).as_bytes =
      [(Header.new kind mode speed_length brightness color).kind,
       (Header.new kind mode speed_length brightness color).reserved,
       (Header.new kind mode speed_length brightness color).mode,
       (Header.new kind mode speed_length brightness color).speed_length,
       (Header.new kind mode speed_length brightness color).brightness,
       (Header.new kind mode speed_length brightness color).color,
       (Header.new kind mode speed_length brightness color).reserved2,
       (Header.new kind mode speed_length brightness color).checksum] ∧
    (Header.new kind mode speed_length brightness color).as_bytes.length = 8 ∧
    (Header.new kind mode speed_length brightness color).reserved = 0 ∧
    (Header.new kind mode speed_length brightness color).reserved2 = 0 := by
  refine ⟨rfl, rfl, rfl, rfl⟩

/-- C2 counterexample: with a transport failing every sub-step, the actual
teardown order has `release_interface(0)` strictly before
`release_interface(3)` — the claimed order (interface 3 released before
interface 0) does not occur. -/
theorem C2_counterexample :
    ((fusionDrop (fun _ => .error .ioErr)).2.map Prod.fst =
      [.releaseInterface 0, .releaseInterface 3,
       .attachKernelDriver 0, .attachKernelDriver 3]) ∧
    occursBefore (.releaseInterface 3) (.releaseInterface 0)
      ((fusionDrop (fun _ => .error .ioErr)).2.map Prod.fst) = false ∧
    occursBefore (.releaseInterface 0) (.releaseInterface 3)
      ((fusionDrop (fun _ => .error .ioErr)).2.map Prod.fst) = true := by
  decide

/-- C2 (amended): session teardown releases interface 0 before interface 3,
then re-attaches kernel drivers to interfaces 0 and 3, attempting every
sub-step, and never raises or propagates an error regardless of what the
transport answers (in particular even if every sub-step fails). -/
theorem C2_teardown (t : TeardownStep → Except UsbError Unit) :
    (fusionDrop t).1 = .ok () ∧
    (fusionDrop t).2.map Prod.fst =
      [.releaseInterface 0, .releaseInterface 3,
       .attachKernelDriver 0, .attachKernelDriver 3] := by
  exact ⟨rfl, rfl⟩

/-- C8: `get_key` returns an `Option` (no failure channel); a transport
error or timeout yields `none`; the result is `some` (the fixed indicator
`'a'`) iff byte index 2 of the 8-byte buffer is nonzero after the transfer;
and exactly one interrupt-In transfer from endpoint 0x81 with a 10 ms
timeout is issued. -/
theorem C8_get_key (r : Except UsbError (List Nat)) :
    (∀ e, (get_key (.error e)).1 = none) ∧
    ((get_key r).1 = some 'a' ↔ (get_key_buf r).getD 2 0 ≠ 0) ∧
    ((get_key r).1 = none ↔ (get_key_buf r).getD 2 0 = 0) ∧
    (get_key r).2 = [UsbAction.interruptIn 0x81 8 10] := by
  refine ⟨fun e => by simp [get_key, get_key_buf], ?_, ?_, rfl⟩
  · by_cases h : (get_key_buf r).getD 2 0 = 0 <;> simp [get_key, h]
  · by_cases h : (get_key_buf r).getD 2 0 = 0 <;> simp [get_key, h]

/-- C6: for a valid slot, `set_custom` sends exactly one control transfer
whose header has kind 0x08, mode `0x33 + slot`, speed_length 0, the given
brightness, and color 0 (slot 2 giving mode 0x35); and
`set_preset Wave 5 20 Blue` sends one control transfer whose header has
kind 0x08, mode 0x03, speed_length 5, brightness 20, color 0x04. -/
theorem C6_activation_headers (ctrl : Except UsbError Nat) (slot brightness : Nat)
    (hs : slot < 5) :
    (set_custom ctrl slot brightness).2 =
      [writeControlAction (Header.new 0x08 (0x33 + slot) 0 brightness 0)] ∧
    (Header.new 0x08 (0x33 + slot) 0 brightness 0).kind = 0x08 ∧
    (Header.new 0x08 (0x33 + slot) 0 brightness 0).mode = 0x33 + slot ∧
    (Header.new 0x08 (0x33 + slot) 0 brightness 0).speed_length = 0 ∧
    (Header.new 0x08 (0x33 + slot) 0 brightness 0).brightness = brightness ∧
    (Header.new 0x08 (0x33 + slot) 0 brightness 0).color = 0 ∧
    (Header.new 0x08 (0x33 + 2) 0 brightness 0).mode = 0x35 ∧
    (set_preset ctrl .Wave 5 20 .Blue).2 =
      [writeControlAction (Header.new 0x08 0x03 5 20 0x04)] ∧
    (Header.new 0x08 0x03 5 20 0x04).kind = 0x08 ∧
    (Header.new 0x08 0x03 5 20 0x04).mode = 0x03 ∧
    (Header.new 0x08 0x03 5 20 0x04).speed_length = 5 ∧
    (Header.new 0x08 0x03 5 20 0x04).brightness = 20 ∧
    (Header.new 0x08 0x03 5 20 0x04).color = 0x04 := by
  refine ⟨?_, rfl, rfl, rfl, rfl, rfl, rfl, ?_, rfl, rfl, rfl, rfl, rfl⟩
  · cases ctrl <;> simp [set_custom, hs, KIND_PRESET]
  · cases ctrl <;> simp [set_preset, KIND_PRESET, Preset.toByte, Color.toByte]

/-- C6 witness: the theorem instantiated at `ctrl = ok 0`, slot 2,
brightness 30. -/
theorem C6_witness :
    (2 < 5) ∧
    ((set_custom (.ok 0) 2 30).2 =
      [writeControlAction (Header.new 0x08 (0x33 + 2) 0 30 0)] ∧
    (Header.new 0x08 (0x33 + 2) 0 30 0).kind = 0x08 ∧
    (Header.new 0x08 (0x33 + 2) 0 30 0).mode = 0x33 + 2 ∧
    (Header.new 0x08 (0x33 + 2) 0 30 0).speed_length = 0 ∧
    (Header.new 0x08 (0x33 + 2) 0 30 0).brightness = 30 ∧
    (Header.new 0x08 (0x33 + 2) 0 30 0).color = 0 ∧
    (Header.new 0x08 (0x33 + 2) 0 30 0).mode = 0x35 ∧
    (set_preset (.ok 0) .Wave 5 20 .Blue).2 =
      [writeControlAction (Header.new 0x08 0x03 5 20 0x04)] ∧
    (Header.new 0x08 0x03 5 20 0x04).kind = 0x08 ∧
    (Header.new 0x08 0x03 5 20 0x04).mode = 0x03 ∧
    (Header.new 0x08 0x03 5 20 0x04).speed_length = 5 ∧
    (Header.new 0x08 0x03 5 20 0x04).brightness = 20 ∧
    (Header.new 0x08 0x03 5 20 0x04).color = 0x04) :=
  ⟨by decide, C6_activation_headers (.ok 0) 2 30 (by decide)⟩

/-- C4: with slot ≥ 5 each of `upload_custom`, `download_custom` and
`set_custom` terminates with the assertion panic and an empty transfer
trace (no USB transfer issued); with slot < 5 the check passes and each
operation proceeds, its first issued transfer being the respective
header-carrying control transfer. -/
theorem C4_slot_precondition (ctrl : Except UsbError Nat)
    (ctrlIn : Except UsbError (List Nat)) (wr : Nat → Except UsbError Nat)
    (rd : Nat → Except UsbError (List Nat)) (slot brightness : Nat)
    (data buf : List Nat) :
    (5 ≤ slot →
      upload_custom ctrl wr slot data =
        (.error (.panicked "assertion failed: slot < 5"), []) ∧
      download_custom ctrl ctrlIn rd slot buf =
        (.error (.panicked "assertion failed: slot < 5"), buf, []) ∧
      set_custom ctrl slot brightness =
        (.error (.panicked "assertion failed: slot < 5"), [])) ∧
    (slot < 5 →
      (upload_custom ctrl wr slot data).2.head? =
        some (writeControlAction (Header.new KIND_CUSTOM_CONFIG slot 0x08 0x00 0x00)) ∧
      (download_custom ctrl ctrlIn rd slot buf).2.2.head? =
        some (writeControlAction (Header.new KIND_READ_CONFIG slot 0 0 0)) ∧
      (set_custom ctrl slot brightness).2.head? =
        some (writeControlAction (Header.new KIND_PRESET (0x33 + slot) 0 brightness 0))) := by
  constructor
  · intro h
    have h5 : ¬ slot < 5 := by omega
    refine ⟨?_, ?_, ?_⟩ <;> simp [upload_custom, download_custom, set_custom, h5]
  · intro h
    refine ⟨?_, ?_, ?_⟩
    · cases ctrl with
      | error e => simp [upload_custom, h]
      | ok n =>
        rcases uploadChunks_trace_mono wr data (List.range 8)
          [writeControlAction (Header.new KIND_CUSTOM_CONFIG slot 0x08 0x00 0x00)]
          with ⟨s, hs⟩
        simp only [upload_custom, if_pos h]
        rw [hs]
        simp
    · cases ctrl with
      | error e => simp [download_custom, h]
      | ok n =>
        cases ctrlIn with
        | error e => simp [download_custom, h]
        | ok l =>
          rcases downloadChunks_trace_mono rd (List.range 8) buf
            [writeControlAction (Header.new KIND_READ_CONFIG slot 0 0 0),
             UsbAction.controlIn 0x01 0x0300 0x0003 8 0]
            with ⟨s, hs⟩
          simp only [download_custom, if_pos h]
          rw [hs]
          simp
    · cases ctrl <;> simp [set_custom, h]

/-- C4 witness: the rejecting branch at slot 7 and the proceeding branch at
slot 2, both concrete. -/
theorem C4_witness :
    (upload_custom (.ok 0) (fun _ => .ok 64) 7 (List.replicate 512 0) =
      (.error (.panicked "assertion failed: slot < 5"), [])) ∧
    ((set_custom (.ok 0) 2 30).2.head? =
      some (writeControlAction (Header.new KIND_PRESET (0x33 + 2) 0 30 0))) :=
  ⟨((C4_slot_precondition (.ok 0) (.ok []) (fun _ => .ok 64) (fun _ => .ok [])
      7 30 (List.replicate 512 0) (List.replicate 512 0)).1 (by decide)).1,
   ((C4_slot_precondition (.ok 0) (.ok []) (fun _ => .ok 64) (fun _ => .ok [])
      2 30 (List.replicate 512 0) (List.replicate 512 0)).2 (by decide)).2.2⟩

/-- C5: for every 512-byte input and valid slot, with a transport that
accepts every write, `upload_custom` issues, after the header control
transfer, exactly 8 interrupt-Out transfers to endpoint 0x06 with zero
timeout, the i-th carrying exactly the 64 bytes at offsets
`[i*64, i*64+64)` in strictly ascending order; their concatenation (no
gaps, no overlaps) is the whole input. -/
theorem C5_upload_transfers (c : Nat) (wr : Nat → Except UsbError Nat)
    (slot : Nat) (data : List Nat) (hs : slot < 5) (hd : data.length = 512)
    (hok : ∀ i, ∃ n, wr i = .ok n) :
    (upload_custom (.ok c) wr slot data).1 = .ok () ∧
    (upload_custom (.ok c) wr slot data).2 =
      writeControlAction (Header.new KIND_CUSTOM_CONFIG slot 0x08 0x00 0x00)
        :: (List.range 8).map
            (fun i => .interruptOut 0x06 ((data.drop (i * 64)).take 64) 0) ∧
    ((upload_custom (.ok c) wr slot data).2.filter UsbAction.isInterruptOut).length
      = 8 ∧
    (∀ i, i < 8 → ((data.drop (i * 64)).take 64).length = 64) ∧
    ((List.range 8).map (fun i => (data.drop (i * 64)).take 64)).flatten = data := by
  have hcond : ∀ i ∈ List.range 8, i * 64 + 64 ≤ data.length ∧ ∃ n, wr i = .ok n := by
    intro i hi
    rw [List.mem_range] at hi
    exact ⟨by omega, hok i⟩
  have hmain : upload_custom (.ok c) wr slot data =
      (.ok (), [writeControlAction (Header.new KIND_CUSTOM_CONFIG slot 0x08 0x00 0x00)]
        ++ (List.range 8).map (uploadChunkAction data)) := by
    simp only [upload_custom, if_pos hs]
    exact uploadChunks_ok wr data (List.range 8) _ hcond
  refine ⟨by rw [hmain], by rw [hmain]; rfl, ?_, ?_, ?_⟩
  · rw [hmain]
    simp only [List.singleton_append, List.filter_cons]
    rw [show (UsbAction.isInterruptOut
      (writeControlAction (Header.new KIND_CUSTOM_CONFIG slot 0x08 0x00 0x00))) = false
      from rfl]
    simp only [Bool.false_eq_true, if_false, filter_interruptOut_map, List.length_map]
    simp
  · intro i hi
    simp only [List.length_take, List.length_drop, hd]
    omega
  · rw [List.range_eq_range', join_segments data 8 0]
    simp only [Nat.zero_mul, List.drop_zero]
    rw [show (8 : Nat) * 64 = 512 from rfl, ← hd, List.take_length]

/-- C5 witness: the theorem at slot 0, a concrete 512-byte input and a
transport acknowledging 64 bytes per chunk. -/
theorem C5_witness :
    (upload_custom (.ok 0) (fun _ => .ok 64) 0 (List.replicate 512 2)).1 = .ok () ∧
    (upload_custom (.ok 0) (fun _ => .ok 64) 0 (List.replicate 512 2)).2 =
      writeControlAction (Header.new KIND_CUSTOM_CONFIG 0 0x08 0x00 0x00)
        :: (List.range 8).map
            (fun i => .interruptOut 0x06 (((List.replicate 512 2).drop (i * 64)).take 64) 0) ∧
    ((upload_custom (.ok 0) (fun _ => .ok 64) 0
        (List.replicate 512 2)).2.filter UsbAction.isInterruptOut).length = 8 ∧
    (∀ i, i < 8 → (((List.replicate 512 2).drop (i * 64)).take 64).length = 64) ∧
    ((List.range 8).map
      (fun i => ((List.replicate 512 2).drop (i * 64)).take 64)).flatten
      = List.replicate 512 2 :=
  C5_upload_transfers 0 (fun _ => .ok 64) 0 (List.replicate 512 2) (by decide)
    (by rw [List.length_replicate]) (fun i => ⟨64, rfl⟩)

set_option maxRecDepth 8192 in
/-- C3 counterexample: a transport whose very first interrupt transfer
fails with a hard error makes `upload_custom` abort after that single
chunk and propagate the error — the sequence does not continue through all
8 chunks. -/
theorem C3_counterexample :
    (upload_custom (.ok 8) (fun i => if i = 0 then .error .ioErr else .ok 64) 0
      (List.replicate 512 0)).1 = .error (.usb .ioErr) ∧
    ((upload_custom (.ok 8) (fun i => if i = 0 then .error .ioErr else .ok 64) 0
      (List.replicate 512 0)).2.filter UsbAction.isInterruptOut).length = 1 := by
  constructor
  · decide
  · decide

/-- C3 (amended): during the 8-chunk interrupt phase of `upload_custom`
and `download_custom`, a short transfer — the transport returns success
with any byte count, possibly fewer than 64 — is degraded to a diagnostic
and the sequence continues through all 8 chunks; a hard transport error at
chunk j, however, is propagated immediately, aborting the sequence after
j+1 interrupt transfers. -/
theorem C3_chunk_failure_policy :
    (∀ (c : Nat) (tf : Nat → Nat) (slot : Nat) (data : List Nat),
      slot < 5 → data.length = 512 →
      (upload_custom (.ok c) (fun i => .ok (tf i)) slot data).1 = .ok () ∧
      ((upload_custom (.ok c) (fun i => .ok (tf i)) slot data).2.filter
        UsbAction.isInterruptOut).length = 8) ∧
    (∀ (c : Nat) (bs : Nat → List Nat) (slot : Nat) (buf : List Nat),
      slot < 5 →
      (download_custom (.ok c) (.ok (List.replicate 8 0)) (fun i => .ok (bs i))
        slot buf).1 = .ok () ∧
      ((download_custom (.ok c) (.ok (List.replicate 8 0)) (fun i => .ok (bs i))
        slot buf).2.2.filter UsbAction.isInterruptIn).length = 8) ∧
    (∀ (c : Nat) (wr : Nat → Except UsbError Nat) (e : UsbError) (j slot : Nat)
      (data : List Nat),
      slot < 5 → data.length = 512 → j < 8 →
      (∀ i, i < j → ∃ n, wr i = .ok n) → wr j = .error e →
      (upload_custom (.ok c) wr slot data).1 = .error (.usb e) ∧
      ((upload_custom (.ok c) wr slot data).2.filter
        UsbAction.isInterruptOut).length = j + 1) ∧
    (∀ (c : Nat) (rd : Nat → Except UsbError (List Nat)) (e : UsbError)
      (j slot : Nat) (buf : List Nat),
      slot < 5 → j < 8 →
      (∀ i, i < j → ∃ bs, rd i = .ok bs) → rd j = .error e →
      (download_custom (.ok c) (.ok (List.replicate 8 0)) rd slot buf).1 =
        .error (.usb e) ∧
      ((download_custom (.ok c) (.ok (List.replicate 8 0)) rd slot buf).2.2.filter
        UsbAction.isInterruptIn).length = j + 1) := by
  refine ⟨?_, ?_, ?_, ?_⟩
  · intro c tf slot data hs hd
    have hmain := uploadChunks_ok (fun i => .ok (tf i)) data (List.range 8)
      [writeControlAction (Header.new KIND_CUSTOM_CONFIG slot 0x08 0x00 0x00)]
      (fun i hi => ⟨by rw [List.mem_range] at hi; omega, tf i, rfl⟩)
    refine ⟨?_, ?_⟩
    · simp only [upload_custom, if_pos hs, hmain]
    · simp only [upload_custom, if_pos hs, hmain, List.singleton_append,
        count_upload_trace]
      simp
  · intro c bs slot buf hs
    obtain ⟨buf2, hmain⟩ := downloadChunks_ok (fun i => .ok (bs i)) (List.range 8) buf
      [writeControlAction (Header.new KIND_READ_CONFIG slot 0 0 0),
       UsbAction.controlIn 0x01 0x0300 0x0003 8 0] (fun i _ => ⟨bs i, rfl⟩)
    refine ⟨?_, ?_⟩
    · simp only [download_custom, if_pos hs, hmain]
    · simp only [download_custom, if_pos hs, hmain, List.length_range,
        count_download_trace]
  · intro c wr e j slot data hs hd hj hpre hwj
    have hmain := uploadChunks_err wr data e (List.range' 0 j) j
      (List.range' (j + 1) (7 - j))
      [writeControlAction (Header.new KIND_CUSTOM_CONFIG slot 0x08 0x00 0x00)]
      (fun i hi => by
        rw [List.mem_range'_1] at hi
        exact ⟨by omega, hpre i (by omega)⟩)
      (by omega) hwj
    rw [← range_eight_split j hj] at hmain
    refine ⟨?_, ?_⟩
    · simp only [upload_custom, if_pos hs, hmain]
    · simp only [upload_custom, if_pos hs, hmain, List.singleton_append,
        count_upload_trace]
      simp
  · intro c rd e j slot buf hs hj hpre hrj
    obtain ⟨buf2, hmain⟩ := downloadChunks_err rd e (List.range' 0 j) j
      (List.range' (j + 1) (7 - j)) buf
      [writeControlAction (Header.new KIND_READ_CONFIG slot 0 0 0),
       UsbAction.controlIn 0x01 0x0300 0x0003 8 0]
      (fun i hi => by
        rw [List.mem_range'_1] at hi
        exact hpre i (by omega)) hrj
    rw [← range_eight_split j hj] at hmain
    refine ⟨?_, ?_⟩
    · simp only [download_custom, if_pos hs, hmain]
    · simp only [download_custom, if_pos hs, hmain, count_download_trace]
      simp

/-- C3 witness: all four branches of the amended policy at concrete
inputs — short transfers (0 bytes acknowledged, empty reads) still give 8
chunks; a hard error at chunk 3 aborts after 4 transfers. -/
theorem C3_witness :
    ((upload_custom (.ok 8) (fun _ => .ok 0) 0 (List.replicate 512 0)).1 = .ok () ∧
     ((upload_custom (.ok 8) (fun _ => .ok 0) 0 (List.replicate 512 0)).2.filter
       UsbAction.isInterruptOut).length = 8) ∧
    ((download_custom (.ok 8) (.ok (List.replicate 8 0)) (fun _ => .ok []) 0
        (List.replicate 512 0)).1 = .ok () ∧
     ((download_custom (.ok 8) (.ok (List.replicate 8 0)) (fun _ => .ok []) 0
        (List.replicate 512 0)).2.2.filter UsbAction.isInterruptIn).length = 8) ∧
    ((upload_custom (.ok 8) (fun i => if i = 3 then .error .ioErr else .ok 64) 0
        (List.replicate 512 0)).1 = .error (.usb .ioErr) ∧
     ((upload_custom (.ok 8) (fun i => if i = 3 then .error .ioErr else .ok 64) 0
        (List.replicate 512 0)).2.filter UsbAction.isInterruptOut).length = 3 + 1) ∧
    ((download_custom (.ok 8) (.ok (List.replicate 8 0))
        (fun i => if i = 3 then .error .ioErr else .ok []) 0
        (List.replicate 512 0)).1 = .error (.usb .ioErr) ∧
     ((download_custom (.ok 8) (.ok (List.replicate 8 0))
        (fun i => if i = 3 then .error .ioErr else .ok []) 0
        (List.replicate 512 0)).2.2.filter UsbAction.isInterruptIn).length = 3 + 1) :=
  ⟨C3_chunk_failure_policy.1 8 (fun _ => 0) 0 (List.replicate 512 0) (by decide)
    (by rw [List.length_replicate]),
   C3_chunk_failure_policy.2.1 8 (fun _ => []) 0 (List.replicate 512 0) (by decide),
   C3_chunk_failure_policy.2.2.1 8 (fun i => if i = 3 then .error .ioErr else .ok 64)
    .ioErr 3 0 (List.replicate 512 0) (by decide) (by rw [List.length_replicate])
    (by decide) (fun i hi => ⟨64, by simp [Nat.ne_of_lt hi]⟩) (by simp),
   C3_chunk_failure_policy.2.2.2 8 (fun i => if i = 3 then .error .ioErr else .ok [])
    .ioErr 3 0 (List.replicate 512 0) (by decide) (by decide)
    (fun i hi => ⟨[], by simp [Nat.ne_of_lt hi]⟩) (by simp)⟩

/-- C7: over a mock transport that records the interrupt-Out writes of
`upload_custom` and replays them as the interrupt-In reads of
`download_custom` (`replayReads`), uploading a 512-byte payload to a valid
slot and then downloading the same slot with no transport error returns
the payload byte-for-byte, and the download succeeds. -/
theorem C7_roundtrip (data out : List Nat) (slot : Nat) (hs : slot < 5)
    (hd : data.length = 512) (ho : out.length = 512) :
    (download_custom (.ok 8) (.ok (List.replicate 8 0))
      (replayReads (upload_custom (.ok 8) (fun _ => .ok 64) slot data).2)
      slot out).1 = .ok () ∧
    (download_custom (.ok 8) (.ok (List.replicate 8 0))
      (replayReads (upload_custom (.ok 8) (fun _ => .ok 64) slot data).2)
      slot out).2.1 = data := by
  have hcond : ∀ i ∈ List.range 8, i * 64 + 64 ≤ data.length ∧
      ∃ n, (fun _ => (Except.ok 64 : Except UsbError Nat)) i = .ok n := by
    intro i hi
    rw [List.mem_range] at hi
    exact ⟨by omega, 64, rfl⟩
  have hup : (upload_custom (.ok 8) (fun _ => .ok 64) slot data).2 =
      [writeControlAction (Header.new KIND_CUSTOM_CONFIG slot 0x08 0x00 0x00)]
        ++ (List.range 8).map (uploadChunkAction data) := by
    simp only [upload_custom, if_pos hs,
      uploadChunks_ok (fun _ => .ok 64) data (List.range 8) _ hcond]
  have hreplay : ∀ i, i < 8 →
      replayReads (upload_custom (.ok 8) (fun _ => .ok 64) slot data).2 i =
      .ok ((data.drop (i * 64)).take 64) := by
    intro i hi
    simp only [replayReads, hup, List.singleton_append, List.filter_cons]
    rw [show UsbAction.isInterruptOut
      (writeControlAction (Header.new KIND_CUSTOM_CONFIG slot 0x08 0x00 0x00)) = false
      from rfl]
    simp only [Bool.false_eq_true, if_false, filter_interruptOut_map]
    rw [List.get?_map, List.get?_range hi]
    rfl
  have hok2 : ∀ i ∈ List.range 8,
      ∃ bs, replayReads (upload_custom (.ok 8) (fun _ => .ok 64) slot data).2 i =
        .ok bs := by
    intro i hi
    exact ⟨_, hreplay i (List.mem_range.mp hi)⟩
  obtain ⟨buf2, hdn⟩ := downloadChunks_ok
    (replayReads (upload_custom (.ok 8) (fun _ => .ok 64) slot data).2)
    (List.range 8) out
    [writeControlAction (Header.new KIND_READ_CONFIG slot 0 0 0),
     UsbAction.controlIn 0x01 0x0300 0x0003 8 0] hok2
  constructor
  · simp only [download_custom, if_pos hs, hdn]
  · simp only [download_custom, if_pos hs, List.range_eq_range']
    exact downloadChunks_roundtrip data hd _ hreplay 8 0 out _ (by omega) ho (by simp)

/-- C7 witness: round trip of the concrete payload `replicate 512 3`
through slot 0 into an initially zeroed output buffer. -/
theorem C7_witness :
    (download_custom (.ok 8) (.ok (List.replicate 8 0))
      (replayReads (upload_custom (.ok 8) (fun _ => .ok 64) 0
        (List.replicate 512 3)).2) 0 (List.replicate 512 0)).1 = .ok () ∧
    (download_custom (.ok 8) (.ok (List.replicate 8 0))
      (replayReads (upload_custom (.ok 8) (fun _ => .ok 64) 0
        (List.replicate 512 3)).2) 0 (List.replicate 512 0)).2.1 =
      List.replicate 512 3 :=
  C7_roundtrip (List.replicate 512 3) (List.replicate 512 0) 0 (by decide)
    (by rw [List.length_replicate]) (by rw [List.length_replicate])

/-- C10: `upload_custom` accepts a slice of any length; with a transport
accepting every write, an input shorter than 512 bytes panics on
out-of-range slice indexing after the control transfer and the
`data.length / 64` full 64-byte chunks already sent, while an input of 512
bytes or more behaves exactly as on its first 512 bytes (the rest is
ignored). -/
theorem C10_arbitrary_length (c : Nat) (wr : Nat → Except UsbError Nat)
    (slot : Nat) (data : List Nat) (hs : slot < 5)
    (hok : ∀ i, ∃ n, wr i = .ok n) :
    (data.length < 512 →
      (upload_custom (.ok c) wr slot data).1 =
        .error (.panicked "range end index out of range for slice") ∧
      (upload_custom (.ok c) wr slot data).2 =
        writeControlAction (Header.new KIND_CUSTOM_CONFIG slot 0x08 0x00 0x00)
          :: (List.range (data.length / 64)).map (uploadChunkAction data)) ∧
    (512 ≤ data.length →
      upload_custom (.ok c) wr slot data =
        upload_custom (.ok c) wr slot (data.take 512)) := by
  constructor
  · intro hlt
    have hmain := uploadChunks_panic wr data hok hlt 8 0
      [writeControlAction (Header.new KIND_CUSTOM_CONFIG slot 0x08 0x00 0x00)]
      (by omega) (by omega)
    rw [Nat.sub_zero] at hmain
    constructor
    · simp only [upload_custom, if_pos hs, List.range_eq_range', hmain]
    · simp only [upload_custom, if_pos hs, List.range_eq_range', hmain,
        List.singleton_append]
  · intro hge
    simp only [upload_custom, if_pos hs]
    exact uploadChunks_take512 wr data hge (List.range 8)
      (fun i hi => by rw [List.mem_range] at hi; omega) _

/-- C10 witness: a 100-byte input panics after one full chunk; a 600-byte
input runs exactly as its first 512 bytes. -/
theorem C10_witness :
    ((upload_custom (.ok 0) (fun _ => .ok 64) 0 (List.replicate 100 7)).1 =
      .error (.panicked "range end index out of range for slice")) ∧
    (upload_custom (.ok 0) (fun _ => .ok 64) 0 (List.replicate 600 1) =
      upload_custom (.ok 0) (fun _ => .ok 64) 0 ((List.replicate 600 1).take 512)) :=
  ⟨((C10_arbitrary_length 0 (fun _ => .ok 64) 0 (List.replicate 100 7) (by decide)
      (fun _ => ⟨64, rfl⟩)).1 (by rw [List.length_replicate]; omega)).1,
   (C10_arbitrary_length 0 (fun _ => .ok 64) 0 (List.replicate 600 1) (by decide)
      (fun _ => ⟨64, rfl⟩)).2 (by rw [List.length_replicate]; omega)⟩

end FusionKbd
